import Mathlib

/-!
Shallow embedding of the parking USSD/WhatsApp service (app/main.py, app/utils.py).

Timestamps: Python naive `datetime.datetime` values are modeled as `Int`
seconds elapsed since a fixed midnight-aligned epoch, so subtraction of two
datetimes yields the gap in seconds and `.time()` (the time of day) is the
value modulo 86400.  Python floor division `//` and `%` by the positive
constants 60 and 86400 coincide with `Int.ediv` / `Int.emod` (Lean `/`, `%`),
which is how they are rendered.  `math.ceil(n / 60.0)` on an integer `n` is
rendered as the exact rational ceiling of `n / 60`.
-/

-- ========================
-- Constants (app/main.py lines 54-60)
-- ========================

def FREE_PARKING_MINUTES : Int := 30

def FIRST_HOUR_COST : Int := 50

def ADDITIONAL_HOUR_COST : Int := 50

/-- Seconds since midnight for `datetime.time(6, 0, 0)`. -/
def DAY_START : Int := 6 * 60 * 60

/-- Seconds since midnight for `datetime.time(22, 0, 0)`. -/
def DAY_END : Int := 22 * 60 * 60

/-- Time of day of a naive timestamp, in seconds since midnight
(`entry_dt.time()` compared as seconds). -/
def timeOfDay (t : Int) : Int := t % 86400

/-- The duration computation of `compute_parking_fee` (main.py lines 135-138):
the branch guarantees a nonnegative numerator, so Python floor division `// 60`
is `Int` division by 60. -/
def durationMinutes (entry_dt exit_dt : Int) : Int :=
  if exit_dt < entry_dt then (entry_dt - exit_dt) / 60 else (exit_dt - entry_dt) / 60

/-- `is_day_entry` of main.py line 143: `DAY_START <= entry_time < DAY_END`. -/
def is_day_entry (entry_dt : Int) : Bool :=
  decide (DAY_START ≤ timeOfDay entry_dt ∧ timeOfDay entry_dt < DAY_END)

/-- `compute_parking_fee` (main.py lines 115-178). -/
def compute_parking_fee (entry_dt exit_dt : Int) : Int :=
  let duration_minutes := durationMinutes entry_dt exit_dt
  if is_day_entry entry_dt then
    if duration_minutes ≤ 30 then 0
    else if duration_minutes ≤ 120 then FIRST_HOUR_COST
    else
      let extra_minutes := duration_minutes - 120
      let extra_hours := ⌈(extra_minutes : ℚ) / 60⌉
      FIRST_HOUR_COST + extra_hours * ADDITIONAL_HOUR_COST
  else
    if duration_minutes ≤ 60 then FIRST_HOUR_COST
    else
      let extra_minutes := duration_minutes - 60
      let extra_hours := ⌈(extra_minutes : ℚ) / 60⌉
      FIRST_HOUR_COST + extra_hours * ADDITIONAL_HOUR_COST

/-- Legacy `calculate_parking_cost` (main.py lines 94-112); Python
`(duration_minutes - 120 + 59) // 60` is floor division, and in the branch
where it is reached the numerator is positive, so it is `Int` division. -/
def calculate_parking_cost (duration_minutes : Int) : Int :=
  if duration_minutes ≤ FREE_PARKING_MINUTES then 0
  else if duration_minutes ≤ 120 then FIRST_HOUR_COST
  else
    let extra_hours := (duration_minutes - 120 + 59) / 60
    FIRST_HOUR_COST + extra_hours * ADDITIONAL_HOUR_COST

-- ========================
-- Arithmetic bridges
-- ========================

theorem floor_div_sixty (x : ℤ) : ⌊(x : ℚ) / 60⌋ = x / 60 := by
  have h1 : ((x : ℚ)) / 60 = ((x : ℤ) : ℚ) / (((60 : ℕ) : ℤ) : ℚ) := by
    push_cast
    ring
  rw [h1]
  exact_mod_cast Rat.floor_intCast_div_natCast x 60

theorem ceil_div_sixty (x : ℤ) : ⌈(x : ℚ) / 60⌉ = (x + 59) / 60 := by
  have h1 : ((x : ℚ)) / 60 = -((((-x : ℤ) : ℚ)) / 60) := by
    push_cast
    ring
  rw [h1, Int.ceil_neg, floor_div_sixty]
  omega

theorem durationMinutes_nonneg (e x : Int) : 0 ≤ durationMinutes e x := by
  unfold durationMinutes
  split <;> [skip; skip] <;> apply Int.ediv_nonneg <;> omega

/-- Normal form of the fee engine with the rational ceiling eliminated. -/
theorem compute_parking_fee_eq (e x : Int) :
    compute_parking_fee e x =
      (if is_day_entry e then
        (if durationMinutes e x ≤ 30 then 0
         else if durationMinutes e x ≤ 120 then 50
         else 50 + ((durationMinutes e x - 120 + 59) / 60) * 50)
       else
        (if durationMinutes e x ≤ 60 then 50
         else 50 + ((durationMinutes e x - 60 + 59) / 60) * 50)) := by
  unfold compute_parking_fee FIRST_HOUR_COST ADDITIONAL_HOUR_COST
  have h120 : ((durationMinutes e x - 120 : ℤ) : ℚ) / 60 = ((durationMinutes e x : ℚ) - 120) / 60 := by
    push_cast
    ring
  have h60 : ((durationMinutes e x - 60 : ℤ) : ℚ) / 60 = ((durationMinutes e x : ℚ) - 60) / 60 := by
    push_cast
    ring
  have c120 := ceil_div_sixty (durationMinutes e x - 120)
  have c60 := ceil_div_sixty (durationMinutes e x - 60)
  rw [h120] at c120
  rw [h60] at c60
  split <;> split_ifs <;> simp_all
  all_goals split_ifs <;> omega

theorem is_day_entry_iff (t : Int) :
    is_day_entry t = true ↔ 6 * 3600 ≤ timeOfDay t ∧ timeOfDay t < 22 * 3600 := by
  unfold is_day_entry DAY_START DAY_END
  rw [decide_eq_true_iff]
  norm_num

-- ========================
-- Claims about the fee engine
-- ========================

/-- C3: for every pair of timestamps with duration d minutes, a day entry
(time of day in [06:00:00, 22:00:00)) yields 0 for d ≤ 30, 50 for
30 < d ≤ 120 and 50 + ceil((d-120)/60)*50 beyond; a night entry yields 50
for d ≤ 60 and 50 + ceil((d-60)/60)*50 beyond; with the stated boundary
values at d = 30, 31, 120, 121 for a day entry. -/
theorem c3_fee_formula (t1 t2 : Int) :
    ((6 * 3600 ≤ timeOfDay t1 ∧ timeOfDay t1 < 22 * 3600) →
      compute_parking_fee t1 t2 =
        (if durationMinutes t1 t2 ≤ 30 then 0
         else if durationMinutes t1 t2 ≤ 120 then 50
         else 50 + ⌈((durationMinutes t1 t2 : ℚ) - 120) / 60⌉ * 50)) ∧
    (¬(6 * 3600 ≤ timeOfDay t1 ∧ timeOfDay t1 < 22 * 3600) →
      compute_parking_fee t1 t2 =
        (if durationMinutes t1 t2 ≤ 60 then 50
         else 50 + ⌈((durationMinutes t1 t2 : ℚ) - 60) / 60⌉ * 50)) ∧
    compute_parking_fee 21600 (21600 + 30 * 60) = 0 ∧
    compute_parking_fee 21600 (21600 + 31 * 60) = 50 ∧
    compute_parking_fee 21600 (21600 + 120 * 60) = 50 ∧
    compute_parking_fee 21600 (21600 + 121 * 60) = 100 := by
  have hc : ∀ d : ℤ, ⌈((d : ℚ) - 120) / 60⌉ = (d - 120 + 59) / 60 := by
    intro d
    have h := ceil_div_sixty (d - 120)
    rw [show ((d - 120 : ℤ) : ℚ) = (d : ℚ) - 120 by push_cast; ring] at h
    omega
  have hc60 : ∀ d : ℤ, ⌈((d : ℚ) - 60) / 60⌉ = (d - 60 + 59) / 60 := by
    intro d
    have h := ceil_div_sixty (d - 60)
    rw [show ((d - 60 : ℤ) : ℚ) = (d : ℚ) - 60 by push_cast; ring] at h
    omega
  refine ⟨?_, ?_, ?_, ?_, ?_, ?_⟩
  · intro hday
    have hb : is_day_entry t1 = true := (is_day_entry_iff t1).mpr hday
    rw [compute_parking_fee_eq, hb, hc]
    simp
  · intro hnight
    have hb : is_day_entry t1 = false := by
      rcases Bool.eq_false_or_eq_true (is_day_entry t1) with h | h
      · exact absurd ((is_day_entry_iff t1).mp h) hnight
      · exact h
    rw [compute_parking_fee_eq, hb, hc60]
    simp
  · rw [compute_parking_fee_eq]
    decide
  · rw [compute_parking_fee_eq]
    decide
  · rw [compute_parking_fee_eq]
    decide
  · rw [compute_parking_fee_eq]
    decide

/-- Witness for C3: a concrete day entry (06:00:00) and a concrete night
entry (00:00:00) instantiating both implications. -/
theorem c3_fee_formula_witness :
    ((6 * 3600 ≤ timeOfDay 21600 ∧ timeOfDay 21600 < 22 * 3600) ∧
      compute_parking_fee 21600 (21600 + 45 * 60) =
        (if durationMinutes 21600 (21600 + 45 * 60) ≤ 30 then 0
         else if durationMinutes 21600 (21600 + 45 * 60) ≤ 120 then 50
         else 50 + ⌈((durationMinutes 21600 (21600 + 45 * 60) : ℚ) - 120) / 60⌉ * 50)) ∧
    (¬(6 * 3600 ≤ timeOfDay 0 ∧ timeOfDay 0 < 22 * 3600) ∧
      compute_parking_fee 0 (45 * 60) =
        (if durationMinutes 0 (45 * 60) ≤ 60 then 50
         else 50 + ⌈((durationMinutes 0 (45 * 60) : ℚ) - 60) / 60⌉ * 50)) :=
  ⟨⟨by decide, (c3_fee_formula 21600 (21600 + 45 * 60)).1 (by decide)⟩,
   ⟨by decide, (c3_fee_formula 0 (45 * 60)).2.1 (by decide)⟩⟩

/-- C4 counterexample: with exit before entry, swapping the arguments does
not always give the same fee, because the day/night tariff is selected from
the first argument.  Entry day 2 at 10:00:00 (timestamp 122400) versus day 1
at 23:00:00 (timestamp 82800): the gap is 660 minutes, the reversed call
bills the day tariff (500) while the correctly ordered call bills the night
tariff (550). -/
theorem c4_reversed_counterexample :
    (82800 : Int) < 122400 ∧
    compute_parking_fee 122400 82800 = 500 ∧
    compute_parking_fee 82800 122400 = 550 ∧
    compute_parking_fee 122400 82800 ≠ compute_parking_fee 82800 122400 := by
  refine ⟨by decide, ?_, ?_, ?_⟩ <;> simp only [compute_parking_fee_eq] <;> decide

/-- C4 amended: for t2 < t1 the duration used by the fee engine is
floor((t1 - t2) in seconds / 60), never negative, and identical for the
reversed pair; the full fee of the reversed pair equals the fee of the
correctly ordered pair whenever both timestamps fall in the same
day/night tariff class (which the counterexample shows is required). -/
theorem c4_reversed_amended (t1 t2 : Int) (h : t2 < t1) :
    durationMinutes t1 t2 = ⌊((t1 : ℚ) - (t2 : ℚ)) / 60⌋ ∧
    0 ≤ durationMinutes t1 t2 ∧
    durationMinutes t1 t2 = durationMinutes t2 t1 ∧
    (is_day_entry t1 = is_day_entry t2 →
      compute_parking_fee t1 t2 = compute_parking_fee t2 t1) := by
  have hdur : durationMinutes t1 t2 = durationMinutes t2 t1 := by
    unfold durationMinutes
    rw [if_pos h, if_neg (by omega)]
  refine ⟨?_, durationMinutes_nonneg t1 t2, hdur, ?_⟩
  · have hf := floor_div_sixty (t1 - t2)
    rw [show ((t1 - t2 : ℤ) : ℚ) = (t1 : ℚ) - (t2 : ℚ) by push_cast; ring] at hf
    unfold durationMinutes
    rw [if_pos h, hf]
  · intro hflag
    rw [compute_parking_fee_eq, compute_parking_fee_eq, hdur, hflag]

/-- Witness for C4 amended: two day-window timestamps with the exit before
the entry. -/
theorem c4_reversed_amended_witness :
    ((36600 : Int) < 122400 ∧ is_day_entry 122400 = is_day_entry 36600) ∧
    (durationMinutes 122400 36600 = ⌊((122400 : ℚ) - (36600 : ℚ)) / 60⌋ ∧
     0 ≤ durationMinutes 122400 36600 ∧
     durationMinutes 122400 36600 = durationMinutes 36600 122400 ∧
     (is_day_entry 122400 = is_day_entry 36600 →
       compute_parking_fee 122400 36600 = compute_parking_fee 36600 122400)) :=
  ⟨⟨by decide, by decide⟩, c4_reversed_amended 122400 36600 (by decide)⟩

/-- C5: for a day-window entry the fee is monotonically non-decreasing in
the duration (exits d1 and d2 minutes after entry, d1 ≤ d2), and the fee of
a stay of length zero is 0. -/
theorem c5_day_monotone (entry d1 d2 : Int)
    (hday : 6 * 3600 ≤ timeOfDay entry ∧ timeOfDay entry < 22 * 3600)
    (h1 : 0 ≤ d1) (h12 : d1 ≤ d2) :
    compute_parking_fee entry (entry + 60 * d1) ≤ compute_parking_fee entry (entry + 60 * d2) ∧
    compute_parking_fee entry entry = 0 := by
  have hb : is_day_entry entry = true := (is_day_entry_iff entry).mpr hday
  have hdur : ∀ d : ℤ, 0 ≤ d → durationMinutes entry (entry + 60 * d) = d := by
    intro d hd
    unfold durationMinutes
    rw [if_neg (by omega)]
    rw [show entry + 60 * d - entry = 60 * d by ring]
    omega
  constructor
  · rw [compute_parking_fee_eq, compute_parking_fee_eq, hb, hdur d1 h1, hdur d2 (by omega)]
    split_ifs <;> omega
  · rw [compute_parking_fee_eq, hb]
    have h0 : durationMinutes entry entry = 0 := by
      unfold durationMinutes
      simp
    rw [h0]
    simp

/-- Witness for C5: entry at 06:00:00, durations 20 and 200 minutes. -/
theorem c5_day_monotone_witness :
    ((6 * 3600 ≤ timeOfDay 21600 ∧ timeOfDay 21600 < 22 * 3600) ∧
     (0 : Int) ≤ 20 ∧ (20 : Int) ≤ 200) ∧
    (compute_parking_fee 21600 (21600 + 60 * 20) ≤ compute_parking_fee 21600 (21600 + 60 * 200) ∧
     compute_parking_fee 21600 21600 = 0) :=
  ⟨⟨by decide, by decide, by decide⟩, c5_day_monotone 21600 20 200 (by decide) (by decide) (by decide)⟩

/-- C10: for a day-window entry, the new fee engine agrees with the legacy
flat-rate `calculate_parking_cost` applied to the same duration in minutes. -/
theorem c10_day_eq_legacy (e x : Int)
    (hday : 6 * 3600 ≤ timeOfDay e ∧ timeOfDay e < 22 * 3600) :
    compute_parking_fee e x = calculate_parking_cost (durationMinutes e x) := by
  have hb : is_day_entry e = true := (is_day_entry_iff e).mpr hday
  rw [compute_parking_fee_eq, hb]
  unfold calculate_parking_cost FREE_PARKING_MINUTES FIRST_HOUR_COST ADDITIONAL_HOUR_COST
  simp

/-- Witness for C10: entry at 06:00:00, exit 121 minutes later. -/
theorem c10_day_eq_legacy_witness :
    (6 * 3600 ≤ timeOfDay 21600 ∧ timeOfDay 21600 < 22 * 3600) ∧
    compute_parking_fee 21600 28860 = calculate_parking_cost (durationMinutes 21600 28860) :=
  ⟨by decide, c10_day_eq_legacy 21600 28860 (by decide)⟩

-- ========================
-- Duration formatter (app/utils.py lines 7-16)
-- ========================

/-- `convert` (utils.py lines 7-16).  Python `//` and `%` on an int with the
positive divisor 60 coincide with `Int` division and modulus. -/
def convert (minutes : Int) : String :=
  let hours := minutes / 60
  let mins := minutes % 60
  if hours = 0 then
    toString mins ++ " minute" ++ (if mins ≠ 1 then "s" else "")
  else if mins = 0 then
    toString hours ++ " hour" ++ (if hours ≠ 1 then "s" else "")
  else
    toString hours ++ " hour" ++ (if hours ≠ 1 then "s" else "") ++ " " ++
      toString mins ++ " minute" ++ (if mins ≠ 1 then "s" else "")

/-- Rendering described by the specification for `humanize(minutes)`:
hours = minutes div 60 and minutes-part = minutes mod 60, each unit
pluralized independently, a zero-valued unit omitted, and a zero total
rendered as minutes-only. -/
def humanizeSpec (n : Nat) : String :=
  let h := n / 60
  let m := n % 60
  let hourPart := toString h ++ " hour" ++ (if h = 1 then "" else "s")
  let minPart := toString m ++ " minute" ++ (if m = 1 then "" else "s")
  if h = 0 then minPart
  else if m = 0 then hourPart
  else hourPart ++ " " ++ minPart

theorem string_append_assoc (a b c : String) : a ++ b ++ c = a ++ (b ++ c) := by
  rcases a with ⟨d1⟩
  rcases b with ⟨d2⟩
  rcases c with ⟨d3⟩
  show String.mk (d1 ++ d2 ++ d3) = String.mk (d1 ++ (d2 ++ d3))
  rw [List.append_assoc]

/-- C6: for every non-negative minute count, `convert` renders hours and
minutes as the specification describes, with the four quoted examples. -/
theorem c6_convert_humanize :
    (∀ n : Nat, convert (n : Int) = humanizeSpec n) ∧
    convert 0 = "0 minutes" ∧
    convert 1 = "1 minute" ∧
    convert 60 = "1 hour" ∧
    convert 90 = "1 hour 30 minutes" := by
  refine ⟨?_, by decide, by decide, by decide, by decide⟩
  intro n
  unfold convert humanizeSpec
  have hdiv : (n : Int) / 60 = ((n / 60 : Nat) : Int) := by
    exact_mod_cast (Int.ofNat_ediv n 60).symm
  have hmod : (n : Int) % 60 = ((n % 60 : Nat) : Int) := by
    push_cast
    ring
  have hts : ∀ m : Nat, toString ((m : Nat) : Int) = toString m := by
    intro m
    rfl
  dsimp only
  simp only [hdiv, hmod, hts, Nat.cast_eq_zero, Nat.cast_eq_one, ne_eq]
  rcases eq_or_ne (n / 60) 0 with h0 | h0 <;>
    rcases eq_or_ne (n % 60) 0 with h2 | h2 <;>
      rcases eq_or_ne (n / 60) 1 with h1 | h1 <;>
        rcases eq_or_ne (n % 60) 1 with h3 | h3 <;>
          simp [h0, h1, h2, h3, string_append_assoc]

-- ========================
-- USSD / WhatsApp router (app/main.py lines 228-482)
-- ========================

/-- Python str whitespace characters relevant to `.strip()` / `.split()`. -/
def isPyWhitespace (c : Char) : Bool :=
  c == ' ' || c == '\t' || c == '\n' || c == '\r' || c == Char.ofNat 11 || c == Char.ofNat 12

/-- Python `str.strip()`. -/
def pyStrip (l : List Char) : List Char :=
  ((l.dropWhile isPyWhitespace).reverse.dropWhile isPyWhitespace).reverse

/-- Python `str.rstrip("#")`: removes every trailing `#`. -/
def rstripHash (l : List Char) : List Char :=
  (l.reverse.dropWhile (fun c => c == '#')).reverse

/-- USSD input normalization (main.py lines 270 and 283):
`str(raw_input).strip()` then `.replace(" ", "").rstrip("#").strip()`. -/
def normalizeUssd (raw : String) : List Char :=
  pyStrip (rstripHash ((pyStrip raw.toList).filter (fun c => !(c == ' '))))

/-- The capture-group condition of the anchored input regexes
`^98\x5c*N\x5c*([^\x5c*#]+)$` (main.py lines 41, 43, 45): non-empty, no
star, no hash. -/
def validUssdArg (arg : List Char) : Bool :=
  !arg.isEmpty && arg.all (fun c => !(c == '*') && !(c == '#'))

/-- Matching one such regex: the text is the literal prefix followed by a
valid captured argument.  Structured as recursion on the prefix. -/
def matchArg : List Char → List Char → Option (List Char)
  | [], tl => if validUssdArg tl then some tl else none
  | _ :: _, [] => none
  | p :: ps, t :: ts => if t == p then matchArg ps ts else none

/-- Plate extraction from a captured group: `.group(1).upper().replace(" ", "")`. -/
def plateOf (arg : List Char) : String :=
  String.mk ((arg.map Char.toUpper).filter (fun c => !(c == ' ')))

/-- Observable side effects of one request: every `trigger_mpesa_push`
invocation (carno, phone) and every `mobile_number` update (carno, phone)
performed on the most recent Operator-A transaction. -/
structure Effects where
  pushes : List (String × String)
  links : List (String × String)
deriving DecidableEq, Repr

def emptyEff : Effects := ⟨[], []⟩

/-- External collaborators of one request, fixed for its duration:
`rngExists` is the value returned by `is_rng_vehicle` (False also when its
query raised, since the exception is caught), `storeA` is
`get_vehicle_transaction` on the default store (latest row id and time_in,
none also on a caught error), `rngFee` is the outcome of
`rng_check_parking_fee_due` (none models a raised exception, handled by the
caller), `pushCode` is the `code` field of the `trigger_mpesa_push` reply,
`linkFails` says whether the database work of `link_phone_to_vehicle`
raises, and `now` is the single `datetime.now()` taken at request entry. -/
structure Env where
  rngExists : String → Bool
  storeA : String → Option (Nat × Int)
  rngFee : String → Option Int
  pushCode : String → String → Int
  linkFails : Bool
  now : Int

/-- `link_phone_to_vehicle` (main.py lines 63-91): best-effort, returns the
list of mobile_number updates performed; any database error is caught and
logged, so a failure performs no update and raises nothing. -/
def link_phone_to_vehicle (env : Env) (carno phone : String) : List (String × String) :=
  if env.linkFails then []
  else
    match env.storeA carno with
    | some _ => [(carno, phone)]
    | none => []

def MSG_WELCOME : String :=
  "CON Welcome to SyfePark USSD!\n" ++
  "By paying with USSD you agree with below terms\n" ++
  "1. Pay for Parking\n2. Check Amount Due\n3. Check Time Stayed\n4. Terms & Conditions\n" ++
  "Note: Vehicles managed by RNG (external) only support Amount checks via option 2."

def MSG_ENTER_PLATE : String := "CON Enter your Plate Number"

def MSG_RNG_PAY : String :=
  "END This vehicle is managed by RNG. Payments must be made via RNG services."

-- The apostrophe of the source string is spelled via its code point.
def MSG_PAY_OK : String :=
  "END Thank You for using Ridgeway" ++ String.mk [Char.ofNat 39] ++
  "s parking. You will receive an M-Pesa prompt shortly."

def MSG_NOT_FOUND : String := "END Vehicle not found!"

def MSG_RNG_TIME : String :=
  "END Time checks are not available for RNG-managed vehicles. Please contact RNG."

def MSG_ERROR : String := "END An error occurred. Please try again."

def MSG_TERMS : String :=
  "END Ridgeways Mall Terms & Conditions...\n(Your data is safe, etc.)"

def MSG_INVALID : String := "END Invalid code entered"

/-- The `98*1*<plate>` branch (main.py lines 302-320). -/
def ussdPay (env : Env) (carno phone : String) : String × Effects :=
  if env.rngExists carno then (MSG_RNG_PAY, emptyEff)
  else
    let links := link_phone_to_vehicle env carno phone
    let pushes := [(carno, phone)]
    if env.pushCode carno phone = 200 then (MSG_PAY_OK, ⟨pushes, links⟩)
    else
      match env.storeA carno with
      | some r =>
          let duration := (env.now - r.2) / 60
          let remaining := max 0 (FREE_PARKING_MINUTES - duration)
          ("END You are within free " ++ toString FREE_PARKING_MINUTES ++ " mins. " ++
             toString remaining ++ " mins left to exit free.", ⟨pushes, links⟩)
      | none => (MSG_NOT_FOUND, ⟨pushes, links⟩)

/-- The `98*2*<plate>` branch (main.py lines 325-351). -/
def ussdAmount (env : Env) (carno phone : String) : String × Effects :=
  if env.rngExists carno then
    match env.rngFee carno with
    | none => (MSG_ERROR, emptyEff)
    | some amount =>
        (if amount ≠ 0 then "END Your amount due for " ++ carno ++ " is KES " ++ toString amount
         else "END No charge for " ++ carno ++ ". Within free time.", emptyEff)
  else
    let links := link_phone_to_vehicle env carno phone
    match env.storeA carno with
    | none => (MSG_NOT_FOUND, ⟨[], links⟩)
    | some r =>
        let cost := compute_parking_fee r.2 env.now
        (if cost ≠ 0 then "END Amount due: KES " ++ toString cost
         else "END No charge. Within free time.", ⟨[], links⟩)

/-- The `98*3*<plate>` branch (main.py lines 356-367). -/
def ussdTime (env : Env) (carno : String) : String × Effects :=
  if env.rngExists carno then (MSG_RNG_TIME, emptyEff)
  else
    match env.storeA carno with
    | some r => ("END Stayed for: " ++ convert ((env.now - r.2) / 60), emptyEff)
    | none => (MSG_NOT_FOUND, emptyEff)

/-- The dispatch of `ussd` (main.py lines 290-375) on the normalized text,
with the branches in source order.  The compiled RNG patterns
(`PATTERN_RNG_MENU`, `PATTERN_RNG_AMOUNT_MENU`, `PATTERN_RNG_AMOUNT_INPUT`,
main.py lines 47-49) are never consulted by this dispatch, so any `98*9...`
input falls through to the final else. -/
def ussdDispatch (env : Env) (tl : List Char) (phone : String) : String × Effects :=
  if tl = "98".toList then (MSG_WELCOME, emptyEff)
  else if tl = "98*1".toList then (MSG_ENTER_PLATE, emptyEff)
  else match matchArg "98*1*".toList tl with
  | some arg => ussdPay env (plateOf arg) phone
  | none =>
  if tl = "98*2".toList then (MSG_ENTER_PLATE, emptyEff)
  else match matchArg "98*2*".toList tl with
  | some arg => ussdAmount env (plateOf arg) phone
  | none =>
  if tl = "98*3".toList then (MSG_ENTER_PLATE, emptyEff)
  else match matchArg "98*3*".toList tl with
  | some arg => ussdTime env (plateOf arg)
  | none =>
  if tl = "98*4".toList then (MSG_TERMS, emptyEff)
  else (MSG_INVALID, emptyEff)

/-- The `/ussd` endpoint on one request: normalize, then dispatch. -/
def ussdHandler (env : Env) (raw phone : String) : String × Effects :=
  ussdDispatch env (normalizeUssd raw) phone

/-- Python `str.lower()`. -/
def pyLower (s : String) : String := String.mk (s.toList.map Char.toLower)

/-- Python no-argument `str.split()`: words are maximal runs of
non-whitespace characters; empty chunks never appear.  `acc` holds the
characters of the current word in reverse. -/
def splitWordsAux : List Char → List Char → List String
  | [], acc => if acc.isEmpty then [] else [String.mk acc.reverse]
  | c :: rest, acc =>
      if isPyWhitespace c then
        if acc.isEmpty then splitWordsAux rest []
        else String.mk acc.reverse :: splitWordsAux rest []
      else splitWordsAux rest (c :: acc)

/-- `body.lower().split()` of `receivetext` (main.py lines 431-434), after
the `.strip()` of line 431. -/
def waParts (body : String) : List String :=
  splitWordsAux (pyLower (String.mk (pyStrip body.toList))).toList []

/-- `" ".join(parts[1:]).upper().replace(" ", "")` (main.py line 438). -/
def waCarno (rest : List String) : String :=
  String.mk (((String.intercalate " " rest).toList.map Char.toUpper).filter
    (fun c => !(c == ' ')))

/-- Effects of one WhatsApp message in the `receivetext` loop
(main.py lines 430-481).  The Infobip template send that follows a push
with code 200 is outbound notification I/O, outside this model. -/
def processMsg (env : Env) (body phone : String) : Effects :=
  match waParts body with
  | [] => emptyEff
  | [_] => emptyEff
  | cmd :: rest =>
    let carno_raw := waCarno rest
    let pay_phone :=
      if cmd = "pay" then (match rest with | _ :: p :: _ => p | _ => phone) else phone
    if cmd = "time" ∨ cmd = "amount" ∨ cmd = "pay" then
      match env.storeA carno_raw with
      | some _ =>
          if cmd = "pay" then ⟨[(carno_raw, pay_phone)], [(carno_raw, pay_phone)]⟩
          else ⟨[], [(carno_raw, pay_phone)]⟩
      | none => emptyEff
    else emptyEff

/-- The `/receivetext/` endpoint over its message list (body, from). -/
def receivetext (env : Env) (msgs : List (String × String)) : Effects :=
  msgs.foldl
    (fun acc m =>
      let e := processMsg env m.1 m.2
      ⟨acc.pushes ++ e.pushes, acc.links ++ e.links⟩)
    emptyEff

theorem matchArg_self (pre arg : List Char) (h : validUssdArg arg = true) :
    matchArg pre (pre ++ arg) = some arg := by
  induction pre with
  | nil => simp [matchArg, h]
  | cons p ps ih => simp [matchArg, ih]

theorem dispatch_pay (env : Env) (arg : List Char) (phone : String)
    (h : validUssdArg arg = true) :
    ussdDispatch env ("98*1*".toList ++ arg) phone = ussdPay env (plateOf arg) phone := by
  have hm := matchArg_self "98*1*".toList arg h
  unfold ussdDispatch
  rw [hm]
  rw [show ("98*1*".toList : List Char) = ['9', '8', '*', '1', '*'] from rfl,
    show ("98".toList : List Char) = ['9', '8'] from rfl,
    show ("98*1".toList : List Char) = ['9', '8', '*', '1'] from rfl]
  simp

theorem dispatch_amount (env : Env) (arg : List Char) (phone : String)
    (h : validUssdArg arg = true) :
    ussdDispatch env ("98*2*".toList ++ arg) phone = ussdAmount env (plateOf arg) phone := by
  have hm := matchArg_self "98*2*".toList arg h
  have hnone : matchArg "98*1*".toList ("98*2*".toList ++ arg) = none := rfl
  unfold ussdDispatch
  rw [hm, hnone]
  rw [show ("98*2*".toList : List Char) = ['9', '8', '*', '2', '*'] from rfl,
    show ("98".toList : List Char) = ['9', '8'] from rfl,
    show ("98*1".toList : List Char) = ['9', '8', '*', '1'] from rfl,
    show ("98*2".toList : List Char) = ['9', '8', '*', '2'] from rfl]
  simp

theorem dispatch_time (env : Env) (arg : List Char) (phone : String)
    (h : validUssdArg arg = true) :
    ussdDispatch env ("98*3*".toList ++ arg) phone = ussdTime env (plateOf arg) := by
  have hm := matchArg_self "98*3*".toList arg h
  have hn1 : matchArg "98*1*".toList ("98*3*".toList ++ arg) = none := rfl
  have hn2 : matchArg "98*2*".toList ("98*3*".toList ++ arg) = none := rfl
  unfold ussdDispatch
  rw [hm, hn1, hn2]
  rw [show ("98*3*".toList : List Char) = ['9', '8', '*', '3', '*'] from rfl,
    show ("98".toList : List Char) = ['9', '8'] from rfl,
    show ("98*1".toList : List Char) = ['9', '8', '*', '1'] from rfl,
    show ("98*2".toList : List Char) = ['9', '8', '*', '2'] from rfl,
    show ("98*3".toList : List Char) = ['9', '8', '*', '3'] from rfl]
  simp

-- ========================
-- Claims about the router
-- ========================

set_option maxRecDepth 40000

/-- C1: any USSD request whose normalized input is `98*1*` followed by a
plate that `is_rng_vehicle` reports as existing in the SyfeParking store is
answered with the cross-operator refusal, and `trigger_mpesa_push` is never
invoked on that request. -/
theorem c1_rng_pay_refused (env : Env) (raw : String) (arg : List Char) (phone : String)
    (harg : validUssdArg arg = true)
    (hn : normalizeUssd raw = "98*1*".toList ++ arg)
    (hrng : env.rngExists (plateOf arg) = true) :
    (ussdHandler env raw phone).1 =
      "END This vehicle is managed by RNG. Payments must be made via RNG services." ∧
    (ussdHandler env raw phone).2.pushes = [] := by
  unfold ussdHandler
  rw [hn, dispatch_pay env arg phone harg]
  unfold ussdPay
  rw [hrng]
  exact ⟨rfl, rfl⟩

def envC1 : Env :=
  { rngExists := fun p => p == "KCA123X"
    storeA := fun _ => none
    rngFee := fun _ => some 0
    pushCode := fun _ _ => 200
    linkFails := false
    now := 0 }

/-- Witness for C1 at the concrete request `98*1*kca123x`. -/
theorem c1_rng_pay_refused_witness :
    (validUssdArg "kca123x".toList = true ∧
     normalizeUssd "98*1*kca123x" = "98*1*".toList ++ "kca123x".toList ∧
     envC1.rngExists (plateOf "kca123x".toList) = true) ∧
    ((ussdHandler envC1 "98*1*kca123x" "254700000001").1 =
       "END This vehicle is managed by RNG. Payments must be made via RNG services." ∧
     (ussdHandler envC1 "98*1*kca123x" "254700000001").2.pushes = []) :=
  ⟨⟨by decide, by decide, by decide⟩,
   c1_rng_pay_refused envC1 "98*1*kca123x" "kca123x".toList "254700000001"
     (by decide) (by decide) (by decide)⟩

def envC2 : Env :=
  { rngExists := fun p => p == "KCA1"
    storeA := fun p => if p == "KCA1" then some (1, 0) else none
    rngFee := fun _ => some 70
    pushCode := fun _ _ => 200
    linkFails := false
    now := 900 }

/-- C2 counterexample: the WhatsApp channel performs no Operator-B check.
With a plate recorded in both stores, the message `pay kca1` invokes the
payment initiator even though the plate exists in Operator B's store. -/
theorem c2_whatsapp_bypass_counterexample :
    envC2.rngExists "KCA1" = true ∧
    (processMsg envC2 "pay kca1" "254700000001").pushes = [("KCA1", "254700000001")] ∧
    (receivetext envC2 [("pay kca1", "254700000001")]).pushes = [("KCA1", "254700000001")] := by
  decide

/-- C2 amended: the cross-operator guard holds on the USSD channel: for a
plate existing in Operator B's store, InitiatePayment is refused with no
push, ComputeDuration is refused, and the Operator-A ComputeAmount is
silently redirected to the Operator-B fee lookup with no push and no local
fee computation. -/
theorem c2_ussd_guard_amended (env : Env) (rawPay rawAmt rawTime : String)
    (arg : List Char) (phone : String)
    (harg : validUssdArg arg = true)
    (h1 : normalizeUssd rawPay = "98*1*".toList ++ arg)
    (h2 : normalizeUssd rawAmt = "98*2*".toList ++ arg)
    (h3 : normalizeUssd rawTime = "98*3*".toList ++ arg)
    (hrng : env.rngExists (plateOf arg) = true) :
    ussdHandler env rawPay phone =
      ("END This vehicle is managed by RNG. Payments must be made via RNG services.",
        emptyEff) ∧
    ussdHandler env rawTime phone =
      ("END Time checks are not available for RNG-managed vehicles. Please contact RNG.",
        emptyEff) ∧
    ussdHandler env rawAmt phone =
      ((match env.rngFee (plateOf arg) with
        | none => MSG_ERROR
        | some amount =>
            if amount ≠ 0 then
              "END Your amount due for " ++ plateOf arg ++ " is KES " ++ toString amount
            else "END No charge for " ++ plateOf arg ++ ". Within free time."),
        emptyEff) := by
  unfold ussdHandler
  rw [h1, h2, h3, dispatch_pay env arg phone harg, dispatch_amount env arg phone harg,
    dispatch_time env arg phone harg]
  unfold ussdPay ussdAmount ussdTime
  rw [hrng]
  simp only []
  refine ⟨rfl, rfl, ?_⟩
  rcases henv : env.rngFee (plateOf arg) with _ | a
  · simp [henv, MSG_ERROR]
  · simp [henv]

/-- Witness for C2 amended at the concrete requests for plate `KCA1`. -/
theorem c2_ussd_guard_amended_witness :
    (validUssdArg "KCA1".toList = true ∧
     normalizeUssd "98*1*KCA1" = "98*1*".toList ++ "KCA1".toList ∧
     normalizeUssd "98*2*KCA1" = "98*2*".toList ++ "KCA1".toList ∧
     normalizeUssd "98*3*KCA1" = "98*3*".toList ++ "KCA1".toList ∧
     envC2.rngExists (plateOf "KCA1".toList) = true) ∧
    (ussdHandler envC2 "98*1*KCA1" "254700000001" =
      ("END This vehicle is managed by RNG. Payments must be made via RNG services.",
        emptyEff) ∧
     ussdHandler envC2 "98*3*KCA1" "254700000001" =
      ("END Time checks are not available for RNG-managed vehicles. Please contact RNG.",
        emptyEff) ∧
     ussdHandler envC2 "98*2*KCA1" "254700000001" =
      ((match envC2.rngFee (plateOf "KCA1".toList) with
        | none => MSG_ERROR
        | some amount =>
            if amount ≠ 0 then
              "END Your amount due for " ++ plateOf "KCA1".toList ++ " is KES " ++ toString amount
            else "END No charge for " ++ plateOf "KCA1".toList ++ ". Within free time."),
        emptyEff)) :=
  ⟨⟨by decide, by decide, by decide, by decide, by decide⟩,
   c2_ussd_guard_amended envC2 "98*1*KCA1" "98*2*KCA1" "98*3*KCA1" "KCA1".toList
     "254700000001" (by decide) (by decide) (by decide) (by decide) (by decide)⟩

def envC7 : Env :=
  { rngExists := fun _ => false
    storeA := fun _ => none
    rngFee := fun _ => some 0
    pushCode := fun _ _ => 200
    linkFails := false
    now := 0 }

/-- C7: the USSD dispatch as implemented.  `98` shows the welcome menu,
`98*1*kca 123x#` normalizes to plate `KCA123X` and initiates payment, and
`98*5` is invalid, as the claim states; but `98*9*2*kca123x` is answered
`END Invalid code entered` instead of resolving to the Operator-B amount
lookup: the compiled RNG patterns (main.py lines 47-49) are never consulted
by the `ussd` dispatch, although its docstring (main.py lines 250-253)
documents that menu. -/
theorem c7_resolution :
    (ussdHandler envC7 "98" "254700000001").1 = MSG_WELCOME ∧
    (ussdHandler envC7 "98*1*kca 123x#" "254700000001").1 = MSG_PAY_OK ∧
    (ussdHandler envC7 "98*1*kca 123x#" "254700000001").2.pushes =
      [("KCA123X", "254700000001")] ∧
    (ussdHandler envC7 "98*9*2*kca123x" "254700000001").1 = MSG_INVALID ∧
    (ussdHandler envC7 "98*5" "254700000001").1 = MSG_INVALID := by
  decide

def envC8 : Env :=
  { rngExists := fun _ => false
    storeA := fun p => if p == "KCA1" then some (1, 0) else none
    rngFee := fun _ => some 0
    pushCode := fun _ _ => 500
    linkFails := false
    now := 900 }

/-- C8 counterexample: the USSD ComputeDuration branch (`98*3*<plate>`,
main.py lines 356-367) performs no phone linking at all: the request is
honored (the stay duration is reported) and a transaction row exists that
`link_phone_to_vehicle` would have updated, yet no `mobile_number` update
happens. -/
theorem c8_time_no_link_counterexample :
    envC8.storeA "KCA1" = some (1, 0) ∧
    envC8.linkFails = false ∧
    (ussdHandler envC8 "98*3*KCA1" "254700000001").1 = "END Stayed for: 15 minutes" ∧
    (ussdHandler envC8 "98*3*KCA1" "254700000001").2.links = [] := by
  decide

theorem ussdPay_fst (env : Env) (b : Bool) (carno phone : String) :
    (ussdPay { env with linkFails := b } carno phone).1 = (ussdPay env carno phone).1 := by
  rcases henv : env.rngExists carno with _ | _
  · by_cases hc : env.pushCode carno phone = 200
    · simp [ussdPay, henv, hc]
    · rcases hs : env.storeA carno with _ | r <;> simp [ussdPay, henv, hc, hs]
  · simp [ussdPay, henv]

theorem ussdAmount_fst (env : Env) (b : Bool) (carno phone : String) :
    (ussdAmount { env with linkFails := b } carno phone).1 = (ussdAmount env carno phone).1 := by
  rcases henv : env.rngExists carno with _ | _
  · rcases hs : env.storeA carno with _ | r <;> simp [ussdAmount, henv, hs]
  · rcases hf : env.rngFee carno with _ | a <;> simp [ussdAmount, henv, hf]

/-- C8 amended: on USSD InitiatePayment and Operator-A ComputeAmount the
router links the supplied phone to the most recent transaction for the
plate, best-effort: exactly the updates of `link_phone_to_vehicle` are
performed, a linking failure never changes the reply, and the payment push
of the pay branch still happens; the USSD ComputeDuration branch performs
no linking. -/
theorem c8_link_best_effort (env : Env) (rawPay rawAmt rawTime : String)
    (arg : List Char) (phone : String)
    (harg : validUssdArg arg = true)
    (h1 : normalizeUssd rawPay = "98*1*".toList ++ arg)
    (h2 : normalizeUssd rawAmt = "98*2*".toList ++ arg)
    (h3 : normalizeUssd rawTime = "98*3*".toList ++ arg)
    (hrng : env.rngExists (plateOf arg) = false) :
    (ussdHandler env rawPay phone).2.links = link_phone_to_vehicle env (plateOf arg) phone ∧
    (ussdHandler env rawAmt phone).2.links = link_phone_to_vehicle env (plateOf arg) phone ∧
    (ussdHandler env rawPay phone).2.pushes = [(plateOf arg, phone)] ∧
    (ussdHandler env rawTime phone).2.links = [] ∧
    (∀ b c : Bool,
      (ussdHandler { env with linkFails := b } rawPay phone).1 =
        (ussdHandler { env with linkFails := c } rawPay phone).1) ∧
    (∀ b c : Bool,
      (ussdHandler { env with linkFails := b } rawAmt phone).1 =
        (ussdHandler { env with linkFails := c } rawAmt phone).1) := by
  unfold ussdHandler
  rw [h1, h2, h3]
  have hpay : ∀ b : Bool,
      ussdDispatch { env with linkFails := b } ("98*1*".toList ++ arg) phone =
        ussdPay { env with linkFails := b } (plateOf arg) phone :=
    fun b => dispatch_pay { env with linkFails := b } arg phone harg
  have hamt : ∀ b : Bool,
      ussdDispatch { env with linkFails := b } ("98*2*".toList ++ arg) phone =
        ussdAmount { env with linkFails := b } (plateOf arg) phone :=
    fun b => dispatch_amount { env with linkFails := b } arg phone harg
  rw [dispatch_pay env arg phone harg, dispatch_amount env arg phone harg,
    dispatch_time env arg phone harg]
  refine ⟨?_, ?_, ?_, ?_, ?_, ?_⟩
  · unfold ussdPay
    rw [hrng]
    simp only [Bool.false_eq_true, if_false]
    split
    · rfl
    · split <;> rfl
  · unfold ussdAmount
    rw [hrng]
    simp only [Bool.false_eq_true, if_false]
    split <;> rfl
  · unfold ussdPay
    rw [hrng]
    simp only [Bool.false_eq_true, if_false]
    split
    · rfl
    · split <;> rfl
  · unfold ussdTime
    rw [hrng]
    simp only [Bool.false_eq_true, if_false]
    split <;> rfl
  · intro b c
    rw [hpay b, hpay c, ussdPay_fst env b (plateOf arg) phone,
      ussdPay_fst env c (plateOf arg) phone]
  · intro b c
    rw [hamt b, hamt c, ussdAmount_fst env b (plateOf arg) phone,
      ussdAmount_fst env c (plateOf arg) phone]

/-- Witness for C8 amended at the concrete plate `KCA1` (present in the
Operator-A store of `envC8`, absent from Operator B). -/
theorem c8_link_best_effort_witness :
    (validUssdArg "KCA1".toList = true ∧
     normalizeUssd "98*1*KCA1" = "98*1*".toList ++ "KCA1".toList ∧
     normalizeUssd "98*2*KCA1" = "98*2*".toList ++ "KCA1".toList ∧
     normalizeUssd "98*3*KCA1" = "98*3*".toList ++ "KCA1".toList ∧
     envC8.rngExists (plateOf "KCA1".toList) = false) ∧
    ((ussdHandler envC8 "98*1*KCA1" "254700000001").2.links =
       link_phone_to_vehicle envC8 (plateOf "KCA1".toList) "254700000001" ∧
     (ussdHandler envC8 "98*2*KCA1" "254700000001").2.links =
       link_phone_to_vehicle envC8 (plateOf "KCA1".toList) "254700000001" ∧
     (ussdHandler envC8 "98*1*KCA1" "254700000001").2.pushes =
       [(plateOf "KCA1".toList, "254700000001")] ∧
     (ussdHandler envC8 "98*3*KCA1" "254700000001").2.links = [] ∧
     (ussdHandler { envC8 with linkFails := true } "98*1*KCA1" "254700000001").1 =
       (ussdHandler { envC8 with linkFails := false } "98*1*KCA1" "254700000001").1 ∧
     (ussdHandler { envC8 with linkFails := true } "98*2*KCA1" "254700000001").1 =
       (ussdHandler { envC8 with linkFails := false } "98*2*KCA1" "254700000001").1) :=
  have h := c8_link_best_effort envC8 "98*1*KCA1" "98*2*KCA1" "98*3*KCA1" "KCA1".toList
    "254700000001" (by decide) (by decide) (by decide) (by decide) (by decide)
  ⟨⟨by decide, by decide, by decide, by decide, by decide⟩,
   ⟨h.1, h.2.1, h.2.2.1, h.2.2.2.1, h.2.2.2.2.1 true false, h.2.2.2.2.2 true false⟩⟩

def envC9 : Env :=
  { rngExists := fun _ => false
    storeA := fun p => if p == "KCA123A" then some (1, 0) else none
    rngFee := fun _ => some 0
    pushCode := fun _ _ => 200
    linkFails := false
    now := 900 }

/-- C9: the WhatsApp grammar as implemented.  The first word lower-cased is
the command and a message of fewer than two words produces nothing, as the
claim states; but for `pay` with a third word the code joins ALL words
after the first into the plate (main.py line 438), so the lookup key for
`pay KCA123A 254712345678` is `KCA123A254712345678` — with `KCA123A` in the
store, that documented message finds no row and triggers no push, while the
two-word `pay KCA123A` pushes; the docstring (main.py lines 416-417) says
the three-word form sends the prompt for plate `KCA123A` to the given
number. -/
theorem c9_whatsapp_grammar :
    waParts "pay KCA123A 254712345678" = ["pay", "kca123a", "254712345678"] ∧
    waCarno ["kca123a", "254712345678"] = "KCA123A254712345678" ∧
    envC9.storeA "KCA123A" = some (1, 0) ∧
    processMsg envC9 "pay KCA123A 254712345678" "254700000001" = emptyEff ∧
    (processMsg envC9 "pay KCA123A" "254700000001").pushes =
      [("KCA123A", "254700000001")] ∧
    processMsg envC9 "pay" "254700000001" = emptyEff := by
  decide
